import Mathlib

/-!
# Verification of the truedata_dashbord feed pipeline

A shallow embedding of the feed-lifecycle / data-pipeline core of the
repository (src/truedata_feed.py, src/database.py, src/app.py), with
theorems settling the behavioural claims about it.

Modelling conventions:
* Python `datetime` values become `Timestamp` records carrying an integer
  time (seconds) and an optional timezone tag (`tzinfo`); the only timezone
  the program ever uses is UTC.
* A vendor live-data object becomes a `Snapshot` whose fields are `Option`s:
  `none` models the attribute being absent (`hasattr` returning `False`, and
  attribute access raising `AttributeError` for the required `symbol` field).
* The `live_data_objs` dictionary is modelled as a total function
  `Nat → Snapshot`; the program only ever reads it at keys in `req_ids`,
  which are exactly the keys the dictionary holds, so totalising it is
  harmless.  The cleared dictionary is the constant empty-snapshot function.
* `queue.Queue` instances drained by a single consumer become Lean lists
  used as FIFOs (enqueue appends at the right, dequeue takes the head).
* External effects (vendor SDK calls, database execution, sleeping) are
  supplied as oracle parameters: `outcomes` scripts the result of each
  `start_live_data` attempt, `live` is the vendor-maintained snapshot per
  subscription handle, and `fail` scripts which `execute_query` calls raise.
  Backoff sleeps are recorded as a list of delay durations.
-/

namespace TruedataDashboard

/-- The only timezone the program constructs (`timezone.utc`). -/
inductive TZInfo
  | utc
deriving DecidableEq

/-- A Python `datetime`: an instant (seconds) plus optional timezone tag. -/
structure Timestamp where
  t : Int
  tzinfo : Option TZInfo
deriving DecidableEq

/-- A vendor live-data object (`td_app.live_data[req_id]`).  Each field is
`none` when the corresponding attribute is absent on the Python object. -/
structure Snapshot where
  symbol : Option String
  ltp : Option Int
  timestamp : Option Timestamp
  ttq : Option Nat
deriving DecidableEq

/-- The snapshot with no attributes at all. -/
def Snapshot.empty : Snapshot :=
  { symbol := none, ltp := none, timestamp := none, ttq := none }

/-- The canonical tick record `db_data` built by `_process_data` and stored
in the `truedata_realtime` table (columns symbol, ts, ltp, volume). -/
structure TickRecord where
  symbol : String
  ts : Timestamp
  ltp : Option Int
  volume : Nat
deriving DecidableEq

/-- A message placed on `message_queue` for the presentation layer. -/
inductive UIMessage
  | toast (text : String) (icon : String)
  | error (text : String)
  | warning (text : String)
deriving DecidableEq

/-- Whether a `UIMessage` is a warning. -/
def UIMessage.isWarning : UIMessage → Bool
  | UIMessage.warning _ => true
  | _ => false

/-- The mutable state of a `TrueDataFeed` instance (the fields of
`TrueDataFeed.__init__` that the claims concern).  `td_app` is `some ()`
exactly when the Python attribute is a live `TD` object rather than `None`;
the `thread` attribute is not modelled (the claims treat the polling loop
directly). -/
structure FeedState where
  running : Bool
  td_app : Option Unit
  req_ids : List Nat
  live_data_objs : Nat → Snapshot
  data_queue : List TickRecord
  message_queue : List UIMessage

/-- Embeds `TrueDataFeed._is_connection_healthy` (truedata_feed.py lines
123-125): `return self.running` — the running flag alone. -/
def isConnectionHealthy (st : FeedState) : Bool :=
  st.running

/-- Embeds `TrueDataFeed._cleanup_connection` (lines 50-60): when `td_app`
is non-null, the vendor teardown calls run (their exceptions are caught and
only printed) and the `finally` block nulls `td_app`; when it is already
null nothing happens. -/
def cleanupConnection (st : FeedState) : FeedState :=
  if st.td_app.isSome then { st with td_app := none } else st

/-- The message text placed on `message_queue` when `_process_data` catches
an exception; the only failure mode of the embedded body is the
`AttributeError` raised by reading a missing `symbol` attribute, whose
formatted text this constant stands for. -/
def dataProcessingFailedMsg : String :=
  "Data processing failed: missing symbol attribute"

/-- Embeds `TrueDataFeed._process_data` (lines 145-165).  `now` is the
wall-clock instant `datetime.now(timezone.utc)` would return.  Reading
`tick_data.symbol` on a snapshot without that attribute raises, the
handler enqueues an error `UIMessage`, and no record is enqueued; otherwise
the record is built with the documented defaults and enqueued. -/
def processData (now : Int) (tick_data : Snapshot) (st : FeedState) : FeedState :=
  match tick_data.symbol with
  | none =>
      { st with message_queue := st.message_queue ++ [UIMessage.error dataProcessingFailedMsg] }
  | some symbol =>
      let price : Option Int := tick_data.ltp
      let timestamp : Timestamp :=
        match tick_data.timestamp with
        | some ts => ts
        | none => { t := now, tzinfo := some TZInfo.utc }
      let volume : Nat :=
        match tick_data.ttq with
        | some v => v
        | none => 0
      let timestamp :=
        if timestamp.tzinfo = none then { timestamp with tzinfo := some TZInfo.utc }
        else timestamp
      { st with data_queue := st.data_queue ++
          [{ symbol := symbol, ts := timestamp, ltp := price, volume := volume }] }

/-- The body of the `for req_id in self.req_ids` loop of
`TrueDataFeed._process_live_data` (lines 137-143), iterated over an explicit
handle list: compare the current vendor snapshot against the last-seen cache
entry by value, and on a difference call `_process_data` and then overwrite
the cache entry with a deep copy of the current snapshot. -/
def processHandles (now : Int) (live : Nat → Snapshot) : List Nat → FeedState → FeedState
  | [], st => st
  | req_id :: rest, st =>
      let current_data := live req_id
      let st1 :=
        if current_data ≠ st.live_data_objs req_id then
          let st2 := processData now current_data st
          { st2 with live_data_objs := Function.update st2.live_data_objs req_id current_data }
        else st
      processHandles now live rest st1

/-- Embeds one full pass of `TrueDataFeed._process_live_data` over
`self.req_ids`. -/
def processLiveData (now : Int) (live : Nat → Snapshot) (st : FeedState) : FeedState :=
  processHandles now live st.req_ids st

/-- Whether `needle` is a prefix of `hay` (character lists). -/
def beginsWith : List Char → List Char → Bool
  | [], _ => true
  | _ :: _, [] => false
  | n :: ns, h :: hs => n == h && beginsWith ns hs

/-- Python's `needle in hay` substring test on strings, by character list. -/
def containsSubAux (needle : List Char) : List Char → Bool
  | [] => beginsWith needle []
  | c :: rest => beginsWith needle (c :: rest) || containsSubAux needle rest

/-- Python's `needle in hay` on strings. -/
def containsSubstring (hay needle : String) : Bool :=
  containsSubAux needle.data hay.data

/-- The error text chosen by `TrueDataFeed._handle_start_error`
(lines 80-86) for a given exception message. -/
def startErrorText (error_msg : String) : String :=
  if containsSubstring error_msg "User Already Connected" then
    "Connection already exists. Try stopping first."
  else
    "Failed to start feed: " ++ error_msg

/-- Embeds `TrueDataFeed._handle_start_error` (lines 80-89): enqueue one
error `UIMessage`, clear the running flag, and clean up the connection. -/
def handleStartError (error_msg : String) (st : FeedState) : FeedState :=
  let st1 := { st with message_queue := st.message_queue ++ [UIMessage.error (startErrorText error_msg)] }
  let st2 := { st1 with running := false }
  cleanupConnection st2

/-- Embeds the `for attempt in range(max_retries)` loop of
`TrueDataFeed._start_live_data_with_retry` (lines 62-72), started at a given
attempt index with a given number of remaining iterations.  `outcomes`
scripts each `td_app.start_live_data` call: `Except.ok ids` returns the
subscription handles, `Except.error e` raises.  The first component is the
loop's result (`none` models the loop running out of iterations without
returning, impossible for a positive iteration count; `some (Except.ok ids)`
a normal return; `some (Except.error e)` the re-raise on the final attempt)
and the second component records the `time.sleep(2 ** attempt)` backoff
delays performed between attempts. -/
def retryFromAttempt (outcomes : Nat → Except String (List Nat)) :
    Nat → Nat → Option (Except String (List Nat)) × List Nat
  | _, 0 => (none, [])
  | attempt, remaining + 1 =>
      match outcomes attempt with
      | Except.ok ids => (some (Except.ok ids), [])
      | Except.error e =>
          if remaining = 0 then (some (Except.error e), [])
          else
            let rest := retryFromAttempt outcomes (attempt + 1) remaining
            (rest.1, 2 ^ attempt :: rest.2)

/-- Embeds `TrueDataFeed._start_live_data_with_retry` with its
`max_retries` bound (default 3 at the call site in `start_feed`). -/
def startLiveDataWithRetry (outcomes : Nat → Except String (List Nat))
    (max_retries : Nat) : Option (Except String (List Nat)) × List Nat :=
  retryFromAttempt outcomes 0 max_retries

/-- Embeds `TrueDataFeed.start_feed` (lines 23-48).  When already running
the guarded body is skipped entirely.  Otherwise: clean up, construct the
new `TD` connection (`td_app := some ()`; constructor failure is not
scripted since no claim concerns it), run the subscription retry loop, and
on success initialise `live_data_objs` from the vendor snapshots
(`_initialize_data_structures`, lines 74-78), set the running flag (the
worker thread spawn is modelled by the flag alone) and enqueue the success
toast; on a raised subscription failure fall to `_handle_start_error`. -/
def startFeed (outcomes : Nat → Except String (List Nat)) (live : Nat → Snapshot)
    (st : FeedState) : FeedState :=
  if st.running then st
  else
    let st1 := cleanupConnection st
    let st2 := { st1 with td_app := some () }
    match (startLiveDataWithRetry outcomes 3).1 with
    | some (Except.ok ids) =>
        let st3 := { st2 with req_ids := ids, live_data_objs := fun r => live r }
        let st4 := { st3 with running := true }
        { st4 with message_queue := st4.message_queue ++ [UIMessage.toast "Data feed started!" "✅"] }
    | some (Except.error e) => handleStartError e st2
    | none => st2

/-- Embeds `TrueDataFeed.stop_feed` (lines 91-107).  When not running the
guarded body is skipped entirely.  Otherwise the running flag is cleared,
the worker is joined (not modelled), the connection cleaned up, the handle
list and cache reset, and the stop toast enqueued; no step of the pure
embedding raises, so the `except` branch is dead. -/
def stopFeed (st : FeedState) : FeedState :=
  if st.running then
    let st1 := { st with running := false }
    let st2 := cleanupConnection st1
    let st3 := { st2 with req_ids := [], live_data_objs := fun _ => Snapshot.empty }
    { st3 with message_queue := st3.message_queue ++ [UIMessage.toast "Data feed stopped" "⏹️"] }
  else st

/-- Embeds `TrueDataFeed._handle_connection_loss` (lines 127-135): enqueue
the warning, clean up, and call `start_feed` again (whose failures it
handles internally, so the surrounding `except` is dead in the pure
embedding). -/
def handleConnectionLoss (outcomes : Nat → Except String (List Nat))
    (live : Nat → Snapshot) (st : FeedState) : FeedState :=
  let st1 := { st with message_queue :=
      st.message_queue ++ [UIMessage.warning "Connection lost, attempting to reconnect..."] }
  startFeed outcomes live (cleanupConnection st1)

/-- Embeds the `while self.running` loop of `TrueDataFeed._run_feed`
(lines 109-121), run for `fuel` iterations under single-actor execution (no
concurrent mutation of the state between the guard and the body): test the
guard, then either take the reconnection path when the health check fails
or process live data.  The `time.sleep(0.1)` pacing is not modelled. -/
def runFeedLoop (outcomes : Nat → Except String (List Nat)) (live : Nat → Snapshot)
    (now : Int) : Nat → FeedState → FeedState
  | 0, st => st
  | fuel + 1, st =>
      if st.running then
        if !(isConnectionHealthy st) then
          runFeedLoop outcomes live now fuel (handleConnectionLoss outcomes live st)
        else
          runFeedLoop outcomes live now fuel (processLiveData now live st)
      else st

/-- Embeds the SQL issued by `TrueDataFeed._store_data` (lines 187-198)
against the `truedata_realtime` table of `DatabaseManager.initialize_tables`
(database.py lines 48-61): `INSERT ... ON CONFLICT (symbol, ts) DO NOTHING`
over a table with primary key (symbol, ts).  The store is the list of rows
in insertion order; a key collision leaves the store unchanged. -/
def upsert (store : List TickRecord) (r : TickRecord) : List TickRecord :=
  if store.any (fun q => decide (q.symbol = r.symbol ∧ q.ts = r.ts)) then store
  else store ++ [r]

/-- Embeds the `try`/`except` body of `TrueDataFeed._store_data`: `fail`
scripts `DatabaseManager.execute_query` raising (with the exception text)
per record.  On failure the store is unchanged (the transaction rolls back)
and one error `UIMessage` is enqueued; on success the upsert applies. -/
def storeData (fail : TickRecord → Option String) (store : List TickRecord)
    (rec : TickRecord) (msgs : List UIMessage) : List TickRecord × List UIMessage :=
  match fail rec with
  | some e => (store, msgs ++ [UIMessage.error ("Database error: " ++ e)])
  | none => (upsert store rec, msgs)

/-- The `while not self.data_queue.empty()` drain of
`TrueDataFeed.process_queue` (lines 178-185), iterating `_store_data` over
the queued records in FIFO order. -/
def drainQueue (fail : TickRecord → Option String) :
    List TickRecord → List TickRecord → List UIMessage → List TickRecord × List UIMessage
  | [], store, msgs => (store, msgs)
  | rec :: rest, store, msgs =>
      let p := storeData fail store rec msgs
      drainQueue fail rest p.1 p.2

/-- Embeds `TrueDataFeed.process_queue` acting on the feed state together
with the database store: drains `data_queue` to empty, persisting each
record via `_store_data`.  Returns the updated feed state and store. -/
def processQueue (fail : TickRecord → Option String) (store : List TickRecord)
    (st : FeedState) : FeedState × List TickRecord :=
  let p := drainQueue fail st.data_queue store st.message_queue
  ({ st with data_queue := [], message_queue := p.2 }, p.1)

/-- Embeds the SQL issued by `get_recent_data` (app.py lines 26-47) against
the store: `SELECT symbol, ts, ltp FROM truedata_realtime WHERE symbol =
ANY(%s) AND ts >= NOW() - INTERVAL '%s hours' ORDER BY ts`.  `now` is the
server clock `NOW()` in seconds; the interval converts hours to seconds.
Only a lower time bound appears in the predicate.  `ORDER BY ts` sorts
ascending by timestamp. -/
def queryRecent (store : List TickRecord) (symbols : List String)
    (now : Int) (hours : Int) : List TickRecord :=
  (store.filter fun r =>
      decide (r.symbol ∈ symbols) && decide (now - hours * 3600 ≤ r.ts.t)).mergeSort
    (fun a b => decide (a.ts.t ≤ b.ts.t))

/-- The record `processData` enqueues for a snapshot whose `symbol`
attribute is present: the body of `_process_data`'s `try` block, factored
out of `processData` for use in statements. -/
def normalizeTick (now : Int) (s : Snapshot) (sym : String) : TickRecord :=
  let timestamp : Timestamp :=
    match s.timestamp with
    | some ts => ts
    | none => { t := now, tzinfo := some TZInfo.utc }
  let volume : Nat :=
    match s.ttq with
    | some v => v
    | none => 0
  let timestamp :=
    if timestamp.tzinfo = none then { timestamp with tzinfo := some TZInfo.utc }
    else timestamp
  { symbol := sym, ts := timestamp, ltp := s.ltp, volume := volume }

/-! ### Concrete states used by witnesses and counterexamples -/

/-- A well-formed vendor snapshot. -/
def snapGood : Snapshot :=
  { symbol := some "RELIANCE", ltp := some 10000,
    timestamp := some { t := 100, tzinfo := some TZInfo.utc }, ttq := some 5 }

/-- A later well-formed snapshot for the same instrument. -/
def snapNew : Snapshot :=
  { symbol := some "RELIANCE", ltp := some 10150,
    timestamp := some { t := 200, tzinfo := some TZInfo.utc }, ttq := some 7 }

/-- A malformed snapshot: changed data but no `symbol` attribute. -/
def snapBad : Snapshot :=
  { symbol := none, ltp := some 10150,
    timestamp := some { t := 200, tzinfo := some TZInfo.utc }, ttq := some 7 }

/-- A snapshot carrying only the required `symbol` attribute. -/
def snapBare : Snapshot :=
  { symbol := some "TCS", ltp := none, timestamp := none, ttq := none }

/-- A feed state mid-poll: running, one subscription handle `0`, cache
seeded with `snapGood`, queues empty. -/
def stPoll : FeedState :=
  { running := true, td_app := some (), req_ids := [0],
    live_data_objs := fun _ => snapGood, data_queue := [], message_queue := [] }

/-- Vendor data where handle `0` now shows the malformed `snapBad`. -/
def liveBad : Nat → Snapshot := fun _ => snapBad

/-- Vendor data where handle `0` now shows `snapNew`. -/
def liveNew : Nat → Snapshot := fun _ => snapNew

/-- The freshly-constructed (disconnected) feed state. -/
def stIdle : FeedState :=
  { running := false, td_app := none, req_ids := [],
    live_data_objs := fun _ => Snapshot.empty, data_queue := [], message_queue := [] }

/-- A running feed state with no subscriptions. -/
def stActive : FeedState :=
  { running := true, td_app := some (), req_ids := [],
    live_data_objs := fun _ => Snapshot.empty, data_queue := [], message_queue := [] }

/-- A state whose running flag is set while `td_app` is null. -/
def stRunNoApp : FeedState :=
  { running := true, td_app := none, req_ids := [],
    live_data_objs := fun _ => Snapshot.empty, data_queue := [], message_queue := [] }

/-- Scripted vendor behaviour where every `start_live_data` call raises. -/
def outcomesFail : Nat → Except String (List Nat) := fun _ => Except.error "boom"

/-- A stored record whose timestamp lies in the future of clock `0`. -/
def futureRec : TickRecord :=
  { symbol := "TCS", ts := { t := 1000000, tzinfo := some TZInfo.utc },
    ltp := some 1, volume := 0 }

/-! ### Helper lemmas about `_process_data` -/

theorem processData_eq_of_symbol (now : Int) (s : Snapshot) (st : FeedState) (sym : String)
    (h : s.symbol = some sym) :
    processData now s st =
      { st with data_queue := st.data_queue ++ [normalizeTick now s sym] } := by
  simp [processData, normalizeTick, h]

theorem processData_eq_of_none (now : Int) (s : Snapshot) (st : FeedState)
    (h : s.symbol = none) :
    processData now s st =
      { st with message_queue :=
          st.message_queue ++ [UIMessage.error dataProcessingFailedMsg] } := by
  simp [processData, h]

theorem processData_running (now : Int) (s : Snapshot) (st : FeedState) :
    (processData now s st).running = st.running := by
  cases h : s.symbol <;> simp [processData, h]

theorem processData_objs (now : Int) (s : Snapshot) (st : FeedState) :
    (processData now s st).live_data_objs = st.live_data_objs := by
  cases h : s.symbol <;> simp [processData, h]

theorem processData_len (now : Int) (s : Snapshot) (st : FeedState) :
    (processData now s st).data_queue.length =
      st.data_queue.length + (if s.symbol.isSome then 1 else 0) := by
  cases h : s.symbol <;> simp [processData, h]

theorem processData_msgs (now : Int) (s : Snapshot) (st : FeedState) :
    ∃ ms, (processData now s st).message_queue = st.message_queue ++ ms ∧
      ms.all (fun m => !m.isWarning) = true := by
  cases h : s.symbol
  · exact ⟨[UIMessage.error dataProcessingFailedMsg],
      by simp [processData, h, UIMessage.isWarning]⟩
  · exact ⟨[], by simp [processData, h]⟩

/-! ### Helper lemmas about `_process_live_data` -/

theorem processHandles_running (now : Int) (live : Nat → Snapshot) (L : List Nat) :
    ∀ st : FeedState, (processHandles now live L st).running = st.running := by
  induction L with
  | nil => intro st; rfl
  | cons h rest ih =>
      intro st
      simp only [processHandles]
      rw [ih]
      split
      · simpa using processData_running now (live h) st
      · rfl

theorem processHandles_objs_not_mem (now : Int) (live : Nat → Snapshot) (L : List Nat) :
    ∀ (st : FeedState) (r : Nat), r ∉ L →
      (processHandles now live L st).live_data_objs r = st.live_data_objs r := by
  induction L with
  | nil => intro st r _; rfl
  | cons h rest ih =>
      intro st r hr
      have hrh : r ≠ h := fun e => hr (e ▸ List.mem_cons_self h rest)
      have hrt : r ∉ rest := fun m => hr (List.mem_cons_of_mem h m)
      simp only [processHandles]
      rw [ih _ r hrt]
      split
      · show Function.update (processData now (live h) st).live_data_objs h (live h) r = _
        rw [Function.update_noteq hrh, processData_objs]
      · rfl

theorem processHandles_objs_mem (now : Int) (live : Nat → Snapshot) (L : List Nat) :
    ∀ (st : FeedState) (r : Nat), L.Nodup → r ∈ L →
      (processHandles now live L st).live_data_objs r = live r := by
  induction L with
  | nil => intro st r _ hr; cases hr
  | cons h rest ih =>
      intro st r hnd hr
      obtain ⟨hht, hndr⟩ := List.nodup_cons.mp hnd
      simp only [processHandles]
      rcases List.mem_cons.mp hr with rfl | hmem
      · rw [processHandles_objs_not_mem now live rest _ r hht]
        by_cases hc : live r ≠ st.live_data_objs r
        · rw [if_pos hc]
          show Function.update (processData now (live r) st).live_data_objs r (live r) r = live r
          rw [Function.update_same]
        · rw [if_neg hc]
          push_neg at hc
          exact hc.symm
      · exact ih _ r hndr hmem

theorem processHandles_len (now : Int) (live : Nat → Snapshot) (L : List Nat) :
    ∀ st : FeedState, L.Nodup →
      (processHandles now live L st).data_queue.length =
        st.data_queue.length +
          L.countP (fun r => decide (live r ≠ st.live_data_objs r) && (live r).symbol.isSome) := by
  induction L with
  | nil => intro st _; simp [processHandles]
  | cons h rest ih =>
      intro st hnd
      obtain ⟨hht, hndr⟩ := List.nodup_cons.mp hnd
      simp only [processHandles]
      rw [List.countP_cons]
      by_cases hc : live h ≠ st.live_data_objs h
      · rw [if_pos hc]
        rw [ih _ hndr]
        have hq : ({ processData now (live h) st with
            live_data_objs :=
              Function.update (processData now (live h) st).live_data_objs h (live h) } :
              FeedState).data_queue.length =
            st.data_queue.length + (if (live h).symbol.isSome then 1 else 0) := by
          simpa using processData_len now (live h) st
        have hcong : rest.countP (fun r =>
              decide (live r ≠ ({ processData now (live h) st with
                live_data_objs :=
                  Function.update (processData now (live h) st).live_data_objs h
                    (live h) } : FeedState).live_data_objs r) && (live r).symbol.isSome) =
            rest.countP (fun r =>
              decide (live r ≠ st.live_data_objs r) && (live r).symbol.isSome) := by
          apply List.countP_congr
          intro x hx
          have hxh : x ≠ h := fun e => hht (e ▸ hx)
          simp [Function.update_noteq hxh, processData_objs]
        rw [hcong, hq]
        have hch : decide (live h ≠ st.live_data_objs h) = true := by simpa using hc
        rw [hch]
        cases hs : (live h).symbol.isSome <;> (simp; try omega)
      · rw [if_neg hc]
        rw [ih _ hndr]
        have hch : decide (live h ≠ st.live_data_objs h) = false := by simpa using hc
        rw [hch]
        simp

theorem processHandles_msgs (now : Int) (live : Nat → Snapshot) (L : List Nat) :
    ∀ st : FeedState, ∃ ms,
      (processHandles now live L st).message_queue = st.message_queue ++ ms ∧
      ms.all (fun m => !m.isWarning) = true := by
  induction L with
  | nil => intro st; exact ⟨[], by simp [processHandles]⟩
  | cons h rest ih =>
      intro st
      simp only [processHandles]
      by_cases hc : live h ≠ st.live_data_objs h
      · rw [if_pos hc]
        obtain ⟨ms0, h0, hw0⟩ := processData_msgs now (live h) st
        obtain ⟨ms1, h1, hw1⟩ := ih ({ processData now (live h) st with
          live_data_objs :=
            Function.update (processData now (live h) st).live_data_objs h (live h) })
        refine ⟨ms0 ++ ms1, ?_, ?_⟩
        · rw [h1]
          simp [h0, List.append_assoc]
        · simp [List.all_append, hw0, hw1]
      · rw [if_neg hc]
        exact ih st

/-! ### Helper lemmas about the queue drain and the feed loop -/

theorem drainQueue_eq (fail : TickRecord → Option String) (q : List TickRecord) :
    ∀ (store : List TickRecord) (msgs : List UIMessage),
      drainQueue fail q store msgs =
        ((q.filter fun r => (fail r).isNone).foldl upsert store,
         msgs ++ (q.filter fun r => (fail r).isSome).map
           (fun r => UIMessage.error ("Database error: " ++ (fail r).getD ""))) := by
  induction q with
  | nil => intro store msgs; simp [drainQueue]
  | cons r rest ih =>
      intro store msgs
      cases hf : fail r with
      | some e =>
          simp only [drainQueue, storeData, hf]
          rw [ih]
          simp [hf]
      | none =>
          simp only [drainQueue, storeData, hf]
          rw [ih]
          simp [hf]

theorem runFeedLoop_noWarning (outcomes : Nat → Except String (List Nat))
    (live : Nat → Snapshot) (now : Int) (fuel : Nat) :
    ∀ st : FeedState, st.running = true →
      ∃ ms, (runFeedLoop outcomes live now fuel st).message_queue = st.message_queue ++ ms ∧
        ms.all (fun m => !m.isWarning) = true := by
  induction fuel with
  | zero => intro st _; exact ⟨[], by simp [runFeedLoop]⟩
  | succ fuel ih =>
      intro st hrun
      have hh : isConnectionHealthy st = true := hrun
      simp only [runFeedLoop, processLiveData, hrun, hh, Bool.not_true, if_true,
        Bool.false_eq_true, if_false]
      have hr2 : (processHandles now live st.req_ids st).running = true := by
        rw [processHandles_running]; exact hrun
      obtain ⟨ms1, h1, hw1⟩ := ih _ hr2
      obtain ⟨ms0, h0, hw0⟩ := processHandles_msgs now live st.req_ids st
      refine ⟨ms0 ++ ms1, ?_, ?_⟩
      · rw [h1, h0, List.append_assoc]
      · simp [List.all_append, hw0, hw1]

/-! ### Claim theorems -/

/-- C1 (counterexample): the claim that a detection pass enqueues exactly one
Tick Record per handle whose snapshot differs fails: with the single handle 0
whose snapshot changed to `snapBad` (which lacks the `symbol` attribute), the
pass enqueues no record at all. -/
theorem changeDetectorDropCx :
    liveBad 0 ≠ stPoll.live_data_objs 0 ∧
    (processLiveData 0 liveBad stPoll).data_queue = [] := by
  constructor
  · decide
  · decide

/-- C1 (amended): one pass of `_process_live_data` over distinct handles
enqueues exactly one Tick Record per handle whose current snapshot differs by
full-value comparison from the cache entry AND whose snapshot carries the
required `symbol` attribute (normalization failures enqueue nothing),
enqueues nothing for unchanged handles, and afterwards the Last-Seen Cache
entry equals (as a value) the current snapshot for every handle, with cache
entries of unprocessed handles untouched. -/
theorem changeDetectorPass (now : Int) (live : Nat → Snapshot) (st : FeedState)
    (hnd : st.req_ids.Nodup) :
    (∀ r ∈ st.req_ids, (processLiveData now live st).live_data_objs r = live r) ∧
    (∀ r, r ∉ st.req_ids →
        (processLiveData now live st).live_data_objs r = st.live_data_objs r) ∧
    (processLiveData now live st).data_queue.length =
      st.data_queue.length +
        st.req_ids.countP
          (fun r => decide (live r ≠ st.live_data_objs r) && (live r).symbol.isSome) :=
  ⟨fun r hr => processHandles_objs_mem now live st.req_ids st r hnd hr,
   fun r hr => processHandles_objs_not_mem now live st.req_ids st r hr,
   processHandles_len now live st.req_ids st hnd⟩

/-- C1 (witness): a concrete changed well-formed snapshot yields exactly one
enqueued record and a cache equal to the new snapshot. -/
theorem changeDetectorPassWitness :
    (processLiveData 0 liveNew stPoll).live_data_objs 0 = liveNew 0 ∧
    (processLiveData 0 liveNew stPoll).data_queue.length = 1 := by
  have h := changeDetectorPass 0 liveNew stPoll (by decide)
  refine ⟨h.1 0 (by decide), ?_⟩
  rw [h.2.2]
  decide

/-- C2 (counterexample): the claim that the Last-Seen Cache entry is left
unchanged when normalization fails and the record is dropped is false: on the
changed malformed snapshot `snapBad` nothing is enqueued, yet the cache entry
for handle 0 is overwritten with `snapBad`. -/
theorem cacheMutationCx :
    (processLiveData 0 liveBad stPoll).data_queue = [] ∧
    (processLiveData 0 liveBad stPoll).live_data_objs 0 = snapBad ∧
    stPoll.live_data_objs 0 ≠ snapBad := by
  refine ⟨by decide, by decide, by decide⟩

/-- C2 (amended): a detection pass updates the cache entry of a subscribed
handle to the current snapshot unconditionally — even when the snapshot lacks
the required `symbol` attribute, so that normalization failed and the derived
record was dropped rather than enqueued. -/
theorem cacheAdvanceDespiteDrop (now : Int) (live : Nat → Snapshot) (st : FeedState)
    (hnd : st.req_ids.Nodup) (r : Nat) (hr : r ∈ st.req_ids)
    (_hsym : (live r).symbol = none) :
    (processLiveData now live st).live_data_objs r = live r :=
  processHandles_objs_mem now live st.req_ids st r hnd hr

/-- C2 (witness): the concrete malformed changed snapshot advances the
cache. -/
theorem cacheAdvanceDespiteDropWitness :
    (processLiveData 0 liveBad stPoll).live_data_objs 0 = liveBad 0 :=
  cacheAdvanceDespiteDrop 0 liveBad stPoll (by decide) 0 (by decide) (by decide)

/-- C3 (counterexample): the claim that the health check is true iff the
running flag is set and `td_app` is non-null fails: in the state with the
running flag set and `td_app` null, `_is_connection_healthy` still reports
healthy. -/
theorem healthCheckCx :
    stRunNoApp.running = true ∧ stRunNoApp.td_app = none ∧
    isConnectionHealthy stRunNoApp = true :=
  ⟨rfl, rfl, rfl⟩

/-- C3 (amended): `_is_connection_healthy` returns exactly the running flag;
the connection object plays no part, so the result is unchanged when
`td_app` is nulled. -/
theorem healthCheckIsRunningFlag (st : FeedState) :
    isConnectionHealthy st = st.running ∧
    isConnectionHealthy st = isConnectionHealthy { st with td_app := none } :=
  ⟨rfl, rfl⟩

/-- C4: subscription is retried with exponential backoff over at most 3
attempts with delays 1 then 2 before the retries; a success on an attempt
before the last returns normally with no failure propagated; and when all 3
attempts fail, the last failure propagates out of the retry loop, and
`start_feed` surfaces exactly one error UI Message and rolls the controller
back to Disconnected: running flag false and connection object cleared. -/
theorem subscriptionRetryExhaustion (outcomes : Nat → Except String (List Nat))
    (live : Nat → Snapshot) (st : FeedState) (e0 e1 e2 : String)
    (hrun : st.running = false) :
    (∀ ids, outcomes 0 = Except.ok ids →
        startLiveDataWithRetry outcomes 3 = (some (Except.ok ids), [])) ∧
    (∀ ids, outcomes 0 = Except.error e0 → outcomes 1 = Except.ok ids →
        startLiveDataWithRetry outcomes 3 = (some (Except.ok ids), [1])) ∧
    (outcomes 0 = Except.error e0 → outcomes 1 = Except.error e1 →
     outcomes 2 = Except.error e2 →
        startLiveDataWithRetry outcomes 3 = (some (Except.error e2), [1, 2]) ∧
        (startFeed outcomes live st).running = false ∧
        (startFeed outcomes live st).td_app = none ∧
        (startFeed outcomes live st).message_queue =
          st.message_queue ++ [UIMessage.error (startErrorText e2)]) := by
  refine ⟨?_, ?_, ?_⟩
  · intro ids h0
    simp [startLiveDataWithRetry, retryFromAttempt, h0]
  · intro ids h0 h1
    simp [startLiveDataWithRetry, retryFromAttempt, h0, h1]
  · intro h0 h1 h2
    have hretry : startLiveDataWithRetry outcomes 3 = (some (Except.error e2), [1, 2]) := by
      simp [startLiveDataWithRetry, retryFromAttempt, h0, h1, h2]
    refine ⟨hretry, ?_, ?_, ?_⟩ <;>
      simp [startFeed, hrun, hretry, handleStartError, cleanupConnection,
        apply_ite FeedState.message_queue]

/-- C4 (witness): with every attempt scripted to fail, the retry loop
propagates the last failure after backoff delays 1 and 2, and `start_feed`
from the idle state ends Disconnected with exactly one error message. -/
theorem subscriptionRetryExhaustionWitness :
    startLiveDataWithRetry outcomesFail 3 = (some (Except.error "boom"), [1, 2]) ∧
    (startFeed outcomesFail liveBad stIdle).running = false ∧
    (startFeed outcomesFail liveBad stIdle).td_app = none ∧
    (startFeed outcomesFail liveBad stIdle).message_queue =
      [UIMessage.error (startErrorText "boom")] := by
  have h := (subscriptionRetryExhaustion outcomesFail liveBad stIdle
    "boom" "boom" "boom" rfl).2.2 rfl rfl rfl
  exact ⟨h.1, h.2.1, h.2.2.1, by simpa using h.2.2.2⟩

/-- C5: calling `stop_feed` when the feed is not running, and `start_feed`
when it is already running, are exact no-ops: the whole controller state —
running flag, connection object, handle list, Last-Seen Cache and both
queues — is returned unchanged, so in particular no UI Message of any kind
is enqueued. -/
theorem idleNoOps (outcomes : Nat → Except String (List Nat)) (live : Nat → Snapshot)
    (st : FeedState) :
    (st.running = false → stopFeed st = st) ∧
    (st.running = true → startFeed outcomes live st = st) := by
  constructor
  · intro h; simp [stopFeed, h]
  · intro h; simp [startFeed, h]

/-- C5 (witness): the concrete idle and running states are returned
unchanged. -/
theorem idleNoOpsWitness :
    stopFeed stIdle = stIdle ∧ startFeed outcomesFail liveBad stActive = stActive :=
  ⟨(idleNoOps outcomesFail liveBad stIdle).1 rfl,
   (idleNoOps outcomesFail liveBad stActive).2 rfl⟩

/-- C6: the storage upsert (`INSERT ... ON CONFLICT (symbol, ts) DO NOTHING`
against the primary key (symbol, ts)) is idempotent: on a store holding at
most one row for the record's key, upserting twice equals upserting once,
and after the upsert the store holds exactly one row for that key; the
duplicate insert is a no-op rather than an error. -/
theorem upsertIdempotent (store : List TickRecord) (r : TickRecord)
    (hdup : store.countP (fun q => decide (q.symbol = r.symbol ∧ q.ts = r.ts)) ≤ 1) :
    upsert (upsert store r) r = upsert store r ∧
    (upsert store r).countP (fun q => decide (q.symbol = r.symbol ∧ q.ts = r.ts)) = 1 := by
  by_cases hany : store.any (fun q => decide (q.symbol = r.symbol ∧ q.ts = r.ts)) = true
  · have h1 : upsert store r = store := by
      unfold upsert
      rw [if_pos hany]
    have hpos : 0 < store.countP (fun q => decide (q.symbol = r.symbol ∧ q.ts = r.ts)) :=
      List.countP_pos_iff.mpr (List.any_eq_true.mp hany)
    refine ⟨?_, ?_⟩
    · rw [h1]; exact h1
    · rw [h1]; omega
  · have hf : store.any (fun q => decide (q.symbol = r.symbol ∧ q.ts = r.ts)) = false := by
      revert hany
      cases store.any (fun q => decide (q.symbol = r.symbol ∧ q.ts = r.ts)) <;> simp
    have h1 : upsert store r = store ++ [r] := by
      unfold upsert
      rw [if_neg (fun h => Bool.false_ne_true (hf ▸ h))]
    have hzero : store.countP (fun q => decide (q.symbol = r.symbol ∧ q.ts = r.ts)) = 0 := by
      rw [List.countP_eq_zero]
      intro a ha hpa
      exact Bool.false_ne_true (hf ▸ List.any_eq_true.mpr ⟨a, ha, hpa⟩)
    have hatrue : (store ++ [r]).any
        (fun q => decide (q.symbol = r.symbol ∧ q.ts = r.ts)) = true := by
      rw [List.any_append]
      simp
    refine ⟨?_, ?_⟩
    · rw [h1]
      unfold upsert
      rw [if_pos hatrue]
    · rw [h1, List.countP_append, hzero]
      simp

/-- C6 (witness): upserting a concrete record into the empty store twice
leaves exactly one row. -/
theorem upsertIdempotentWitness :
    upsert (upsert [] futureRec) futureRec = upsert [] futureRec ∧
    (upsert [] futureRec).countP
      (fun q => decide (q.symbol = futureRec.symbol ∧ q.ts = futureRec.ts)) = 1 :=
  upsertIdempotent [] futureRec (by decide)

/-- C7: normalization of a raw snapshot whose `symbol` attribute is present
always enqueues exactly one record in which a missing last-traded-price
yields a null price, a missing timestamp defaults to the current wall clock
in UTC, a missing volume defaults to zero, a timezone-less timestamp is
stamped UTC, and the stored timestamp is never timezone-ambiguous; a
snapshot missing the required `symbol` field instead enqueues one error UI
Message and no record — `processData` is total, so the polling loop is never
aborted by a malformed tick. -/
theorem tickNormalizerSpec (now : Int) (snap : Snapshot) (st : FeedState) :
    (∀ sym, snap.symbol = some sym →
      ∃ rec, (processData now snap st).data_queue = st.data_queue ++ [rec] ∧
        (processData now snap st).message_queue = st.message_queue ∧
        rec.symbol = sym ∧
        rec.ltp = snap.ltp ∧
        (snap.timestamp = none → rec.ts = { t := now, tzinfo := some TZInfo.utc }) ∧
        (snap.ttq = none → rec.volume = 0) ∧
        (∀ v, snap.ttq = some v → rec.volume = v) ∧
        (∀ ts, snap.timestamp = some ts → ts.tzinfo = none →
            rec.ts = { t := ts.t, tzinfo := some TZInfo.utc }) ∧
        rec.ts.tzinfo ≠ none) ∧
    (snap.symbol = none →
      (processData now snap st).data_queue = st.data_queue ∧
      (processData now snap st).message_queue =
        st.message_queue ++ [UIMessage.error dataProcessingFailedMsg]) := by
  constructor
  · intro sym hsym
    refine ⟨normalizeTick now snap sym, ?_, ?_, ?_, ?_, ?_, ?_, ?_, ?_, ?_⟩
    · rw [processData_eq_of_symbol now snap st sym hsym]
    · rw [processData_eq_of_symbol now snap st sym hsym]
    · rfl
    · rfl
    · intro h; simp [normalizeTick, h]
    · intro h; simp [normalizeTick, h]
    · intro v h; simp [normalizeTick, h]
    · intro ts h htz; simp [normalizeTick, h, htz]
    · cases hts : snap.timestamp with
      | none => simp [normalizeTick, hts]
      | some ts =>
          cases htz : ts.tzinfo with
          | none => simp [normalizeTick, hts, htz]
          | some u => cases u; simp [normalizeTick, hts, htz]
  · intro hsym
    rw [processData_eq_of_none now snap st hsym]
    exact ⟨rfl, rfl⟩

/-- C7 (witness): the concrete malformed snapshot is dropped with one error
message and no record. -/
theorem tickNormalizerSpecWitness :
    (processData 5 snapBad stIdle).data_queue = [] ∧
    (processData 5 snapBad stIdle).message_queue =
      [UIMessage.error dataProcessingFailedMsg] := by
  have h := (tickNormalizerSpec 5 snapBad stIdle).2 rfl
  simpa using h

/-- C8: draining the data queue with a failing store enqueues one error UI
Message per failed record, never re-queues a failed record (the data queue
ends empty), never raises across the boundary (the drain is total), and
persists every remaining record: the final store is the fold of the upsert
over exactly the records whose stores succeeded, in queue order. -/
theorem drainContinuesOnStorageFailure (fail : TickRecord → Option String)
    (store : List TickRecord) (st : FeedState) :
    (processQueue fail store st).1.data_queue = [] ∧
    (processQueue fail store st).2 =
      (st.data_queue.filter fun r => (fail r).isNone).foldl upsert store ∧
    (processQueue fail store st).1.message_queue =
      st.message_queue ++ (st.data_queue.filter fun r => (fail r).isSome).map
        (fun r => UIMessage.error ("Database error: " ++ (fail r).getD "")) := by
  refine ⟨rfl, ?_, ?_⟩ <;> simp [processQueue, drainQueue_eq]

/-- C9 (counterexample): the claim that the recent-data query returns only
records whose timestamp lies within the trailing window is false: the query
enforces no upper time bound, so a stored record whose timestamp lies in the
future of the query clock (hence outside the trailing 24-hour window ending
now) is still returned. -/
theorem queryRecentFutureCx :
    queryRecent [futureRec] ["TCS"] 0 24 = [futureRec] ∧ 0 < futureRec.ts.t := by
  constructor
  · simp [queryRecent, futureRec, List.mergeSort]
  · decide

/-- C9 (amended): the recent-data query returns only records whose symbol is
in the requested list and whose timestamp is at least `now` minus the
trailing window (the SQL enforces only this lower bound; no upper bound), and
the returned records are ordered by timestamp ascending. -/
theorem queryRecentFilterSorted (store : List TickRecord) (symbols : List String)
    (now : Int) (hours : Int) :
    (∀ r ∈ queryRecent store symbols now hours,
        r.symbol ∈ symbols ∧ now - hours * 3600 ≤ r.ts.t) ∧
    List.Pairwise (fun a b => a.ts.t ≤ b.ts.t) (queryRecent store symbols now hours) := by
  constructor
  · intro r hr
    rw [queryRecent, List.mem_mergeSort] at hr
    obtain ⟨-, hcond⟩ := List.mem_filter.mp hr
    simp only [Bool.and_eq_true, decide_eq_true_eq] at hcond
    exact hcond
  · have h := @List.sorted_mergeSort TickRecord (fun a b => decide (a.ts.t ≤ b.ts.t))
      (fun a b c hab hbc => by
        simp only [decide_eq_true_eq] at hab hbc ⊢
        exact le_trans hab hbc)
      (fun a b => by
        simp only [Bool.or_eq_true, decide_eq_true_eq]
        exact Int.le_total a.ts.t b.ts.t)
      (store.filter fun r => decide (r.symbol ∈ symbols) && decide (now - hours * 3600 ≤ r.ts.t))
    rw [queryRecent]
    exact h.imp (fun hab => by simpa using hab)

/-- C9 (witness): the sortedness conclusion evaluated on a concrete store. -/
theorem queryRecentFilterSortedWitness :
    List.Pairwise (fun a b : TickRecord => a.ts.t ≤ b.ts.t)
      (queryRecent [futureRec] ["TCS"] 0 24) :=
  (queryRecentFilterSorted [futureRec] ["TCS"] 0 24).2

/-- C10: in the background feed loop under single-actor execution, whenever
an iteration's body runs with the running flag still set, the health check
evaluates true (it returns exactly the flag the guard just tested), so the
reconnection path of `_handle_connection_loss` is never taken: across any
number of iterations, the messages the loop produces never include a
warning — in particular never the "Connection lost" warning. -/
theorem runFeedNeverReconnects (outcomes : Nat → Except String (List Nat))
    (live : Nat → Snapshot) (now : Int) (fuel : Nat) (st : FeedState)
    (hrun : st.running = true) :
    isConnectionHealthy st = true ∧
    ∃ ms, (runFeedLoop outcomes live now fuel st).message_queue = st.message_queue ++ ms ∧
      ms.all (fun m => !m.isWarning) = true :=
  ⟨hrun, runFeedLoop_noWarning outcomes live now fuel st hrun⟩

/-- C10 (witness): two iterations from a concrete running state produce no
messages at all. -/
theorem runFeedNeverReconnectsWitness :
    isConnectionHealthy stActive = true ∧
    (runFeedLoop outcomesFail liveBad 0 2 stActive).message_queue = [] := by
  have h := runFeedNeverReconnects outcomesFail liveBad 0 2 stActive rfl
  exact ⟨h.1, by decide⟩

end TruedataDashboard
